import Mathlib

/-!
Verification of the kookpy surf-forecast data pipeline.

Shallow embedding of the data-acquisition and scoring core:
  - `calculate_heuristic_score` embeds `calculate_heuristic_score`
    (src/data_collector.py, lines 23-29);
  - the tide-extremum machinery embeds `fetch_tide_data`
    (src/kookpy/__init__.py, lines 162-190);
  - `fetch_wind_endpoint` embeds the endpoint selection of `fetch_wind_data`
    (src/kookpy/__init__.py, lines 111-113);
  - `innerMerge` and `outerMerge` embed pandas merges on the `time` column;
    the repository's call sites (src/kookpy/__init__.py line 219 and
    src/data_collector.py line 65) both pass the literal `how='inner'`;
  - `get_surf_forecast` embeds `get_surf_forecast_by_name`
    (src/kookpy/__init__.py, lines 198-222), with the geocoding result and
    the two fetched tables passed explicitly;
  - `predict_surf_quality` embeds `predict_surf_quality`
    (src/kookpy/__init__.py, lines 236-256), with the external TensorFlow
    model abstracted as a function on the ordered feature vector.

Machine floats are modelled as rationals; a pandas NaN cell is `none` in an
`Option ℚ` column; the hour-aligned `time` column is modelled as `Nat`.
-/

namespace Kookpy

/-- Heuristic wave quality score, from src/data_collector.py lines 23-29:
`0.5 * swell_wave_height + 0.4 * swell_wave_period - 0.1 * wind_speed_10m`,
then floored at `0` by `max(0, x)`. -/
def calculate_heuristic_score (h p w : ℚ) : ℚ :=
  max 0 (0.5 * h + 0.4 * p - 0.1 * w)

/-- Modelled from the spec (section 4.4), for comparison with the code's
heuristic: each feature is normalized against its cap (3.0 m for height,
15.0 s for period, 30.0 km/h for wind), scaled to 0-10, combined with
weights +0.5, +0.4, -0.1, and the result clamped into [1, 10]. -/
def spec_heuristic_score (h p w : ℚ) : ℚ :=
  let hn := 10 * min h 3 / 3
  let pn := 10 * min p 15 / 15
  let wn := 10 * min w 30 / 30
  min 10 (max 1 (0.5 * hn + 0.4 * pn - 0.1 * wn))

/-- Computable maximum of two rationals, used by the rolling-window scan. -/
def qmax (a b : ℚ) : ℚ := if a ≤ b then b else a

/-- Computable minimum of two rationals, used by the rolling-window scan. -/
def qmin (a b : ℚ) : ℚ := if a ≤ b then a else b

/-- Sentinel handling in `fetch_tide_data`, src/kookpy/__init__.py line 165:
`df['sea_level_height_msl'].replace(-999, np.nan)` replaces every `-999`
reading with NaN (modelled as `none`). -/
def tideClean (xs : List ℚ) : List (Option ℚ) :=
  xs.map fun v => if v = -999 then none else some v

/-- The centered width-3 window of pandas `rolling(window=3, center=True)`
at index `i`: defined only when positions `i-1`, `i`, `i+1` all exist and
hold non-missing values (default `min_periods` equals the window size, so
an edge row or a window touching a NaN yields NaN). -/
def window3 (xs : List (Option ℚ)) (i : Nat) : Option (ℚ × ℚ × ℚ) :=
  if i = 0 then none else
  match xs[i-1]?, xs[i]?, xs[i+1]? with
  | some (some a), some (some b), some (some c) => some (a, b, c)
  | _, _, _ => none

/-- src/kookpy/__init__.py line 168: a sample is flagged a local maximum
when its value equals the centered rolling-window maximum; a NaN cell or an
undefined window compares false. -/
def isLocalMax (xs : List (Option ℚ)) (i : Nat) : Bool :=
  match xs[i]?, window3 xs i with
  | some (some v), some (a, b, c) => v == qmax (qmax a b) c
  | _, _ => false

/-- src/kookpy/__init__.py line 169: a sample is flagged a local minimum
when its value equals the centered rolling-window minimum. -/
def isLocalMin (xs : List (Option ℚ)) (i : Nat) : Bool :=
  match xs[i]?, window3 xs i with
  | some (some v), some (a, b, c) => v == qmin (qmin a b) c
  | _, _ => false

/-- Indices of the rows flagged as local maxima. -/
def localMaxima (xs : List (Option ℚ)) : List Nat :=
  (List.range xs.length).filter fun i => isLocalMax xs i

/-- Indices of the rows flagged as local minima. -/
def localMinima (xs : List (Option ℚ)) : List Nat :=
  (List.range xs.length).filter fun i => isLocalMin xs i

/-- The `(time, height)` rows selected by an extremum flag, in time order:
`df[is_max].dropna()` / `df[is_min].dropna()` of src/kookpy/__init__.py
lines 171-172 (a flagged row always has a defined value). -/
def extremaRows (p : List (Option ℚ) → Nat → Bool) (xs : List (Option ℚ)) :
    List (Nat × ℚ) :=
  (List.range xs.length).filterMap fun i =>
    if p xs i then ((xs[i]?).getD none).map (fun v => (i, v)) else none

/-- The earliest row with time strictly after `now`, src/kookpy/__init__.py
lines 175-176: `tides[tides['time'] > now].iloc[0]` on a time-ascending
table, or `None` when no such row exists. -/
def nextAfter (rows : List (Nat × ℚ)) (now : Nat) : Option (Nat × ℚ) :=
  (rows.filter fun r => now < r.1).head?

/-- Result-dictionary construction of src/kookpy/__init__.py lines 178-190:
a `next_high_tide` / `next_low_tide` key is added only when the matching
sample exists, and an empty dictionary is collapsed to `None`. -/
def buildTideResult (nh nl : Option (Nat × ℚ)) :
    Option (List (String × Nat × ℚ)) :=
  let result :=
    (match nh with
      | some s => [("next_high_tide", s)]
      | none => []) ++
    (match nl with
      | some s => [("next_low_tide", s)]
      | none => [])
  if result.isEmpty then none else some result

/-- The tide-extremum pipeline of `fetch_tide_data`, src/kookpy/__init__.py
lines 162-190, applied to a fetched hourly `sea_level_height_msl` series:
clean the sentinel, flag extrema with the centered width-3 window, and keep
the earliest high and low strictly after `now`. -/
def fetch_tide_data (raw : List ℚ) (now : Nat) :
    Option (List (String × Nat × ℚ)) :=
  buildTideResult
    (nextAfter (extremaRows isLocalMax (tideClean raw)) now)
    (nextAfter (extremaRows isLocalMin (tideClean raw)) now)

/-- The keys present in a tide result (empty for `None`). -/
def tideResultKeys (r : Option (List (String × Nat × ℚ))) : List String :=
  (r.getD []).map Prod.fst

/-- The spec's worked tide series: `[1.0, 2.0, 3.0, 2.0, 1.0, 2.0, 3.0]`
at hours 0..6. -/
def exampleTideSeries : List ℚ := [1, 2, 3, 2, 1, 2, 3]

/-- `pd.merge(a, b, on='time', how='inner')` for tables keyed by unique
hour-aligned timestamps: a row per key of `a` that also occurs in `b`. -/
def innerMerge {α β : Type} (a : List (Nat × α)) (b : List (Nat × β)) :
    List (Nat × α × β) :=
  a.filterMap fun p => (b.lookup p.1).map fun y => (p.1, p.2, y)

/-- `pd.merge(a, b, on='time', how='outer')` for the same tables: a row per
key of either input, with a missing side left absent. -/
def outerMerge {α β : Type} (a : List (Nat × α)) (b : List (Nat × β)) :
    List (Nat × Option α × Option β) :=
  let keys := a.map Prod.fst ++
    (b.map Prod.fst).filter fun t => !(a.map Prod.fst).contains t
  keys.map fun t => (t, a.lookup t, b.lookup t)

/-- The merge as invoked in `collect_and_save_historical_data`,
src/data_collector.py line 65: marine rows are `(time, height, period)`,
wind rows are `(time, wind_speed)`, and the join policy at the call site is
the literal `how='inner'`. -/
def collector_merge (marine : List (Nat × ℚ × ℚ)) (wind : List (Nat × ℚ)) :
    List (Nat × (ℚ × ℚ) × ℚ) :=
  innerMerge marine wind

/-- The feature values consumed by `calculate_heuristic_score` in the
collector pipeline, src/data_collector.py lines 59-69: the merged rows are
scored as fetched, with no sentinel replacement in between. -/
def collector_scorer_inputs (marine : List (Nat × ℚ × ℚ))
    (wind : List (Nat × ℚ)) : List ℚ :=
  (collector_merge marine wind).foldr
    (fun r acc => r.2.1.1 :: r.2.1.2 :: r.2.2 :: acc) []

/-- The scored rows `(time, height, period, wind, wave_quality_score)`
produced by the collector pipeline, src/data_collector.py lines 59-69. -/
def collector_scored_rows (marine : List (Nat × ℚ × ℚ))
    (wind : List (Nat × ℚ)) : List (Nat × ℚ × ℚ × ℚ × ℚ) :=
  (collector_merge marine wind).map fun r =>
    (r.1, r.2.1.1, r.2.1.2, r.2.2,
      calculate_heuristic_score r.2.1.1 r.2.1.2 r.2.2)

/-- `get_surf_forecast_by_name`, src/kookpy/__init__.py lines 198-222, with
the geocoding result and the two fetched tables passed explicitly: an empty
table when geocoding failed, the inner merge when both fetches returned
rows, and an empty table otherwise. -/
def get_surf_forecast (coords : Option (ℚ × ℚ))
    (marine : List (Nat × ℚ × ℚ)) (wind : List (Nat × ℚ)) :
    List (Nat × (ℚ × ℚ) × ℚ) :=
  match coords with
  | none => []
  | some _ =>
      if !marine.isEmpty && !wind.isEmpty then innerMerge marine wind else []

/-- The two upstream weather endpoints of src/kookpy/__init__.py lines
14-15. -/
inductive Endpoint where
  | historical
  | forecast
deriving DecidableEq

/-- Endpoint selection of `fetch_wind_data`, src/kookpy/__init__.py lines
111-113: the archive endpoint exactly when `start_date < today`, dates
modelled as day ordinals. -/
def fetch_wind_endpoint (start_date today : Int) : Endpoint :=
  if start_date < today then Endpoint.historical else Endpoint.forecast

/-- The feature list of `predict_surf_quality`, src/kookpy/__init__.py line
239. -/
def required_features : List String :=
  ["swell_wave_height", "swell_wave_period", "wind_speed_10m",
   "sea_level_height_msl"]

/-- The required features absent from a row: the labels a `KeyError` from
`data_point[features]` reports, src/kookpy/__init__.py lines 242 and
251-253. -/
def missingFeatures (row : List (String × ℚ)) : List String :=
  required_features.filter fun f => (row.lookup f).isNone

/-- `predict_surf_quality`, src/kookpy/__init__.py lines 236-256: the
external model (scalers plus network) is abstracted as a function on the
ordered feature vector; indexing the data point by the feature list raises
a `KeyError` naming the absent labels when any required feature is missing,
and that single call then fails (the code reports the missing names and
returns `None`), modelled as `Except.error` carrying the missing names. -/
def predict_surf_quality (model : List ℚ → ℚ) (row : List (String × ℚ)) :
    Except (List String) ℚ :=
  if missingFeatures row = [] then
    Except.ok (model (required_features.filterMap fun f => row.lookup f))
  else
    Except.error (missingFeatures row)

end Kookpy

namespace Kookpy

theorem lookup_some_mem_keys {β : Type} {b : List (Nat × β)} {t : Nat}
    {y : β} (hy : b.lookup t = some y) : t ∈ b.map Prod.fst := by
  induction b with
  | nil => simp [List.lookup] at hy
  | cons q rest ih =>
      rcases q with ⟨k, v⟩
      by_cases hk : t = k
      · subst hk
        simp
      · rw [List.lookup_cons] at hy
        rw [show (t == k) = false from beq_eq_false_iff_ne.mpr hk] at hy
        simp only [List.map_cons, List.mem_cons]
        exact Or.inr (ih hy)

theorem innerMerge_mem_keys {α β : Type} {a : List (Nat × α)}
    {b : List (Nat × β)} {t : Nat}
    (ht : t ∈ (innerMerge a b).map Prod.fst) :
    t ∈ a.map Prod.fst ∧ t ∈ b.map Prod.fst := by
  rw [List.mem_map] at ht
  obtain ⟨r, hr, hfst⟩ := ht
  rw [innerMerge, List.mem_filterMap] at hr
  obtain ⟨q, hq, hgq⟩ := hr
  rw [Option.map_eq_some'] at hgq
  obtain ⟨y, hy, hry⟩ := hgq
  subst hry
  subst hfst
  exact ⟨List.mem_map.mpr ⟨q, hq, rfl⟩, lookup_some_mem_keys hy⟩

theorem get_surf_forecast_mem_keys {coords : Option (ℚ × ℚ)}
    {marine : List (Nat × ℚ × ℚ)} {wind : List (Nat × ℚ)} {t : Nat}
    (ht : t ∈ (get_surf_forecast coords marine wind).map Prod.fst) :
    t ∈ marine.map Prod.fst ∧ t ∈ wind.map Prod.fst := by
  rcases coords with _ | q
  · simp [get_surf_forecast] at ht
  · rw [get_surf_forecast] at ht
    by_cases hcond : (!marine.isEmpty && !wind.isEmpty) = true
    · rw [if_pos hcond] at ht
      exact innerMerge_mem_keys ht
    · rw [if_neg hcond] at ht
      simp at ht

/-- C1 counterexample: the code's heuristic score is not the spec's
normalized-and-clamped reference definition, and its output is not confined
to [1, 10]: at height 0, period 0, wind 100 the code yields 0 (below the
claimed lower clamp of 1, and different from the reference definition's 1),
and at height 100, period 100, wind 0 it yields 90, far above 10. -/
theorem calculate_heuristic_score_not_clamped :
    calculate_heuristic_score 0 0 100 = 0 ∧
    ¬ (1 ≤ calculate_heuristic_score 0 0 100) ∧
    calculate_heuristic_score 0 0 100 ≠ spec_heuristic_score 0 0 100 ∧
    calculate_heuristic_score 100 100 0 = 90 ∧
    ¬ (calculate_heuristic_score 100 100 0 ≤ 10) := by
  norm_num [calculate_heuristic_score, spec_heuristic_score]

/-- C1 (amended): the heuristic score is the raw weighted combination
`0.5 * height + 0.4 * period - 0.1 * wind` with no cap normalization,
floored at 0 and with no upper clamp; on the pathological inputs the result
is 90 (not 10) for height 100, period 100, wind 0, and 0 (not 1) for
height 0, period 0, wind 100. -/
theorem calculate_heuristic_score_formula :
    (∀ h p w : ℚ, calculate_heuristic_score h p w
        = max 0 (0.5 * h + 0.4 * p - 0.1 * w)) ∧
    calculate_heuristic_score 100 100 0 = 90 ∧
    calculate_heuristic_score 0 0 100 = 0 := by
  refine ⟨fun h p w => rfl, ?_, ?_⟩ <;>
    norm_num [calculate_heuristic_score]

/-- C5: the heuristic score is monotonically non-decreasing in swell wave
height and in swell wave period, and non-increasing in wind speed, the
other two features held fixed. -/
theorem calculate_heuristic_score_monotone :
    (∀ h₁ h₂ p w : ℚ, h₁ ≤ h₂ →
        calculate_heuristic_score h₁ p w ≤ calculate_heuristic_score h₂ p w) ∧
    (∀ h p₁ p₂ w : ℚ, p₁ ≤ p₂ →
        calculate_heuristic_score h p₁ w ≤ calculate_heuristic_score h p₂ w) ∧
    (∀ h p w₁ w₂ : ℚ, w₁ ≤ w₂ →
        calculate_heuristic_score h p w₂ ≤ calculate_heuristic_score h p w₁) := by
  refine ⟨?_, ?_, ?_⟩
  · intro h₁ h₂ p w hle
    unfold calculate_heuristic_score
    exact max_le_max le_rfl (by linarith)
  · intro h p₁ p₂ w hle
    unfold calculate_heuristic_score
    exact max_le_max le_rfl (by linarith)
  · intro h p w₁ w₂ hle
    unfold calculate_heuristic_score
    exact max_le_max le_rfl (by linarith)

/-- C5 witness: concrete instances of all three monotonicity directions. -/
theorem calculate_heuristic_score_monotone_witness :
    calculate_heuristic_score 1 10 5 ≤ calculate_heuristic_score 2 10 5 ∧
    calculate_heuristic_score 1 10 5 ≤ calculate_heuristic_score 1 12 5 ∧
    calculate_heuristic_score 1 10 20 ≤ calculate_heuristic_score 1 10 5 :=
  ⟨calculate_heuristic_score_monotone.1 1 2 10 5 (by norm_num),
   calculate_heuristic_score_monotone.2.1 1 10 12 5 (by norm_num),
   calculate_heuristic_score_monotone.2.2 1 10 5 20 (by norm_num)⟩

/-- C9: for every input row, including arbitrarily negative heights and
periods or arbitrarily large wind speeds, the heuristic score is at least
0, and whenever the weighted combination is non-positive the score is
exactly 0: the implementation floors the combination at 0. -/
theorem calculate_heuristic_score_nonneg :
    (∀ h p w : ℚ, 0 ≤ calculate_heuristic_score h p w) ∧
    (∀ h p w : ℚ, 0.5 * h + 0.4 * p - 0.1 * w ≤ 0 →
        calculate_heuristic_score h p w = 0) := by
  constructor
  · intro h p w
    exact le_max_left 0 _
  · intro h p w hle
    unfold calculate_heuristic_score
    exact max_eq_left hle

/-- C9 witness: a strongly negative row still scores 0, not below. -/
theorem calculate_heuristic_score_nonneg_witness :
    0 ≤ calculate_heuristic_score (-100) (-100) 1000 ∧
    calculate_heuristic_score (-100) (-100) 1000 = 0 :=
  ⟨calculate_heuristic_score_nonneg.1 (-100) (-100) 1000,
   calculate_heuristic_score_nonneg.2 (-100) (-100) 1000 (by norm_num)⟩

/-- C2 counterexample: on the spec's worked series hour 6 is an edge row of
the centered width-3 window (its window is undefined), so the code does not
flag it as a local maximum, contradicting the claimed maxima at hours 2 and
6. -/
theorem tide_example_hour6_not_max :
    isLocalMax (tideClean exampleTideSeries) 6 = false ∧
    window3 (tideClean exampleTideSeries) 6 = none := by
  decide

/-- C2 (amended): on the series `[1, 2, 3, 2, 1, 2, 3]` at hours 0..6 the
algorithm flags hour 2 as the only local maximum (hour 6 is an edge row and
excluded) and hour 4 as the only local minimum; with `now` at hour 1 the
next high tide is the hour-2 sample of height 3 and the next low tide is
the hour-4 sample of height 1. -/
theorem tide_example_extrema :
    localMaxima (tideClean exampleTideSeries) = [2] ∧
    localMinima (tideClean exampleTideSeries) = [4] ∧
    fetch_tide_data exampleTideSeries 1 =
      some [("next_high_tide", (2, 3)), ("next_low_tide", (4, 1))] := by
  decide

/-- C3: for every date range with `start_date <= end_date`, when `end_date`
is strictly before today the wind fetcher selects the historical archive
endpoint, and when `start_date` is today or later it selects the forecast
endpoint. -/
theorem fetch_wind_endpoint_selection :
    ∀ s e t : Int, s ≤ e →
      (e < t → fetch_wind_endpoint s t = Endpoint.historical) ∧
      (t ≤ s → fetch_wind_endpoint s t = Endpoint.forecast) := by
  intro s e t hse
  constructor
  · intro het
    unfold fetch_wind_endpoint
    rw [if_pos (by omega)]
  · intro hts
    unfold fetch_wind_endpoint
    rw [if_neg (by omega)]

/-- C3 witness: a fully past range selects the archive endpoint and a range
starting today or later selects the forecast endpoint. -/
theorem fetch_wind_endpoint_selection_witness :
    fetch_wind_endpoint 0 5 = Endpoint.historical ∧
    fetch_wind_endpoint 7 5 = Endpoint.forecast :=
  ⟨(fetch_wind_endpoint_selection 0 3 5 (by norm_num)).1 (by norm_num),
   (fetch_wind_endpoint_selection 7 8 5 (by norm_num)).2 (by norm_num)⟩

/-- C4 counterexample: the collector pipeline performs no sentinel
replacement, so a fetched wind reading of -999 is consumed literally by the
scorer: with marine row (hour 0, height 2, period 8) and wind row (hour 0,
wind -999) the scorer receives -999 and manufactures the score 104.1 from
it. -/
theorem sentinel_reaches_scorer :
    ((-999 : ℚ) ∈ collector_scorer_inputs [(0, (2, 8))] [(0, -999)]) ∧
    collector_scored_rows [(0, (2, 8))] [(0, -999)]
      = [(0, 2, 8, -999, 1041 / 10)] := by
  constructor
  · decide
  · simp only [collector_scored_rows, collector_merge, innerMerge,
      List.filterMap, List.lookup, List.map]
    norm_num [calculate_heuristic_score]

/-- C4 (amended): on the tide path every -999 reading is replaced with an
absent marker before the extremum logic runs, so the cleaned series never
contains -999 as a literal value; the collector scoring path applies no
such replacement (see the counterexample). -/
theorem tide_sentinel_replaced :
    ∀ xs : List ℚ, ((tideClean xs).contains (some (-999))) = false := by
  intro xs
  induction xs with
  | nil => rfl
  | cons v rest ih =>
      have ih2 : ((rest.map fun v => if v = -999 then none
          else some v).contains (some (-999 : ℚ))) = false := by
        rw [show (rest.map fun v => if v = -999 then none else some v)
              = tideClean rest from rfl]
        exact ih
      by_cases hv : v = -999
      · rw [tideClean, List.map_cons, List.contains_cons, if_pos hv]
        rw [show ((some (-999 : ℚ)) == (none : Option ℚ)) = false from rfl]
        rw [Bool.false_or]
        exact ih2
      · rw [tideClean, List.map_cons, List.contains_cons, if_neg hv]
        have hb : ((some (-999 : ℚ)) == some v) = false := by
          simp only [beq_eq_false_iff_ne]
          intro hc
          exact hv (Option.some.inj hc).symm
        rw [hb, Bool.false_or]
        exact ih2

/-- C6 counterexample: both repository call sites invoke the merge with the
join policy fixed to inner, so on tables with disjoint hours they return
the empty table where an outer join keeps both rows: the join semantics is
hardcoded at the call sites, not accepted as a parameter. -/
theorem merge_call_sites_inner_counterexample :
    collector_merge [(0, (2, 8))] [(1, 3)] = [] ∧
    get_surf_forecast (some (33, -117)) [(0, (2, 8))] [(1, 3)] = [] ∧
    outerMerge [(0, ((2 : ℚ), (8 : ℚ)))] [(1, (3 : ℚ))]
      = [(0, some (2, 8), none), (1, none, some 3)] := by
  refine ⟨by decide, by decide, by decide⟩

/-- C6 (amended): the two merge call sites fix the inner join: every hour
in the merged output of either call site is present in both input tables
(the defining property of the inner join, which the hardcoded `how='inner'`
arguments commit to). -/
theorem merge_call_sites_inner :
    ∀ (marine : List (Nat × ℚ × ℚ)) (wind : List (Nat × ℚ)) (t : Nat),
      (t ∈ (collector_merge marine wind).map Prod.fst →
        t ∈ marine.map Prod.fst ∧ t ∈ wind.map Prod.fst) ∧
      (∀ c, t ∈ (get_surf_forecast c marine wind).map Prod.fst →
        t ∈ marine.map Prod.fst ∧ t ∈ wind.map Prod.fst) := by
  intro marine wind t
  constructor
  · exact fun ht => innerMerge_mem_keys ht
  · exact fun c ht => get_surf_forecast_mem_keys ht

/-- C6 witness: a shared hour of the two concrete tables is reported in
both inputs by the call-site merge. -/
theorem merge_call_sites_inner_witness :
    1 ∈ ([(1, ((5 : ℚ), (6 : ℚ)))].map Prod.fst) ∧
    1 ∈ ([(1, (2 : ℚ))].map Prod.fst) :=
  (merge_call_sites_inner [(1, (5, 6))] [(1, 2)] 1).1 (by decide)

/-- C7: a scoring invocation on a row lacking one or more required features
fails with an error naming exactly the absent required features (the
reported list is nonempty, and every name on it is a required feature
absent from the row), and the failure is confined to that call: the
row-wise pipeline still produces one result per row, and every other row's
result is exactly its own isolated scoring result. -/
theorem predict_surf_quality_missing_feature :
    ∀ (model : List ℚ → ℚ) (rows : List (List (String × ℚ))) (j : Nat)
      (row : List (String × ℚ)),
      rows[j]? = some row →
      (∃ f ∈ required_features, (row.lookup f).isNone) →
      ((rows.map (predict_surf_quality model))[j]?
          = some (Except.error (missingFeatures row)) ∧
        (missingFeatures row).isEmpty = false ∧
        ((missingFeatures row).all fun f =>
          required_features.contains f && (row.lookup f).isNone) = true ∧
        (rows.map (predict_surf_quality model)).length = rows.length ∧
        ∀ (k : Nat) (rk : List (String × ℚ)), rows[k]? = some rk →
          (rows.map (predict_surf_quality model))[k]?
            = some (predict_surf_quality model rk)) := by
  intro model rows j row hj hmiss
  obtain ⟨f, hf, hnone⟩ := hmiss
  have hfmem : f ∈ missingFeatures row :=
    List.mem_filter.mpr ⟨hf, hnone⟩
  have hne : missingFeatures row ≠ [] := List.ne_nil_of_mem hfmem
  refine ⟨?_, ?_, ?_, by rw [List.length_map], ?_⟩
  · rw [List.getElem?_map, hj, Option.map_some']
    unfold predict_surf_quality
    rw [if_neg hne]
  · rw [List.isEmpty_eq_false_iff_exists_mem]
    exact ⟨f, hfmem⟩
  · rw [List.all_eq_true]
    intro g hg
    have hg2 := List.mem_filter.mp hg
    rw [Bool.and_eq_true]
    exact ⟨List.elem_eq_true_of_mem hg2.1, hg2.2⟩
  · intro k rk hk
    rw [List.getElem?_map, hk, Option.map_some']

/-- C7 witness: on a pipeline of two rows where the first row carries only
a swell height, the first call fails naming the three absent required
features while the complete second row is unaffected. -/
theorem predict_surf_quality_missing_feature_witness :
    ([[("swell_wave_height", (1 : ℚ))],
       [("swell_wave_height", (1 : ℚ)), ("swell_wave_period", 10),
        ("wind_speed_10m", 3), ("sea_level_height_msl", 0)]].map
        (predict_surf_quality (fun _ => 5)))[0]?
      = some (Except.error
          (missingFeatures [("swell_wave_height", (1 : ℚ))])) ∧
    (missingFeatures [("swell_wave_height", (1 : ℚ))]).isEmpty = false :=
  have h := predict_surf_quality_missing_feature (fun _ => 5)
    [[("swell_wave_height", (1 : ℚ))],
     [("swell_wave_height", (1 : ℚ)), ("swell_wave_period", 10),
      ("wind_speed_10m", 3), ("sea_level_height_msl", 0)]]
    0 [("swell_wave_height", (1 : ℚ))] rfl
    ⟨"swell_wave_period", by decide, by decide⟩
  ⟨h.1, h.2.1⟩

/-- C8: in the tide result, each of the two classes is omitted when no
extremum of that class lies strictly after `now`: the corresponding key is
simply not present in the returned dictionary, never present with a null
or placeholder value. -/
theorem tide_result_omits_missing_class :
    ∀ (raw : List ℚ) (now : Nat),
      (nextAfter (extremaRows isLocalMax (tideClean raw)) now = none →
        (tideResultKeys (fetch_tide_data raw now)).contains
          "next_high_tide" = false) ∧
      (nextAfter (extremaRows isLocalMin (tideClean raw)) now = none →
        (tideResultKeys (fetch_tide_data raw now)).contains
          "next_low_tide" = false) := by
  intro raw now
  constructor
  · intro hnone
    rw [fetch_tide_data, hnone]
    rcases hl : nextAfter (extremaRows isLocalMin (tideClean raw)) now with
      _ | s
    · simp [buildTideResult, tideResultKeys]
    · simp [buildTideResult, tideResultKeys]
  · intro hnone
    rw [fetch_tide_data, hnone]
    rcases hh : nextAfter (extremaRows isLocalMax (tideClean raw)) now with
      _ | s
    · simp [buildTideResult, tideResultKeys]
    · simp [buildTideResult, tideResultKeys]

/-- C8 witness: a strictly increasing 3-hour series has no extrema at all,
so both keys are absent; the series `[1, 2, 3, 2]` has a high tide but no
low tide after hour 0, so only `next_low_tide` is absent. -/
theorem tide_result_omits_missing_class_witness :
    (tideResultKeys (fetch_tide_data [1, 2, 3] 0)).contains
      "next_high_tide" = false ∧
    (tideResultKeys (fetch_tide_data [1, 2, 3, 2] 0)).contains
      "next_low_tide" = false :=
  ⟨(tide_result_omits_missing_class [1, 2, 3] 0).1 (by decide),
   (tide_result_omits_missing_class [1, 2, 3, 2] 0).2 (by decide)⟩

/-- C10: the forecast facade is all-or-nothing over its two sources: when
geocoding yields no coordinate, or either the marine or the wind fetch
returns an empty table, the facade returns the entirely empty table; and
every hour of a returned forecast row is backed by both sources, so no
partial single-source forecast is ever returned. -/
theorem get_surf_forecast_all_or_nothing :
    ∀ (coords : Option (ℚ × ℚ)) (marine : List (Nat × ℚ × ℚ))
      (wind : List (Nat × ℚ)),
      ((coords = none ∨ marine = [] ∨ wind = []) →
        get_surf_forecast coords marine wind = []) ∧
      (∀ t, t ∈ (get_surf_forecast coords marine wind).map Prod.fst →
        t ∈ marine.map Prod.fst ∧ t ∈ wind.map Prod.fst) := by
  intro coords marine wind
  constructor
  · intro hcase
    rcases hcase with hc | hm | hw
    · rw [hc, get_surf_forecast]
    · rcases coords with _ | q
      · rw [get_surf_forecast]
      · rw [get_surf_forecast, if_neg (by simp [hm])]
    · rcases coords with _ | q
      · rw [get_surf_forecast]
      · rw [get_surf_forecast, if_neg (by simp [hw])]
  · intro t ht
    exact get_surf_forecast_mem_keys ht

/-- C10 witness: a missing coordinate and an empty marine table each yield
the empty forecast, and an hour of a successful forecast is backed by both
sources. -/
theorem get_surf_forecast_all_or_nothing_witness :
    get_surf_forecast none [(0, (1, 2))] [(0, 3)] = [] ∧
    get_surf_forecast (some (33, -117)) [] [(0, 3)] = [] ∧
    (1 ∈ ([(1, ((4 : ℚ), (9 : ℚ)))].map Prod.fst) ∧
      1 ∈ ([(1, (7 : ℚ))].map Prod.fst)) :=
  ⟨(get_surf_forecast_all_or_nothing none [(0, (1, 2))] [(0, 3)]).1
      (Or.inl rfl),
   (get_surf_forecast_all_or_nothing (some (33, -117)) [] [(0, 3)]).1
      (Or.inr (Or.inl rfl)),
   (get_surf_forecast_all_or_nothing (some (33, -117))
      [(1, (4, 9))] [(1, 7)]).2 1 (by decide)⟩

end Kookpy
